import Mathlib

/-!
Shallow embedding of the devnet orchestrator (`e2e.Stack.Run` and
`e2e.Stack.runMonomer`).

The Go pipeline performs a strictly ordered sequence of external effects
(spawning subprocesses, probing endpoints, RPC calls, file loads).  We embed
it as a pure function of a `World`, a record that supplies the outcome of
every external operation in program order.  The function returns the
pipeline's error result (`none` models Go's `nil` error) together with a
trace of the externally visible events it performed, in order.  Each event
carries exactly the arguments the Go code passes to the corresponding
external call, so claims about argument flow become claims about the trace.

Textual conventions: Go's `fmt.Errorf("stage: %v", err)` wrapping is modelled
by `wrap`; where Go formats a whole `exec.Cmd` into the message we abbreviate
it to the executable's name ("anvil", "forge"), which does not affect any
claim under consideration.
-/

namespace Monomer

set_option maxHeartbeats 2000000

/-- A non-nil Go `error` value. -/
structure Err where
  msg : String
deriving DecidableEq

/-- `fmt.Errorf("stage: %v", err)`: wrap an error with stage context. -/
def wrap (stage : String) (e : Err) : Err :=
  ⟨stage ++ ": " ++ e.msg⟩

/-- An endpoint from the `e2e/url` package: a `(host, port)` pair that can
report its textual form and its `host:port` form.  (The package itself is not
under `src/`; the spec's **Endpoint** description, §3, gives this shape.) -/
structure URL where
  hostname : String
  port : String
deriving DecidableEq

/-- `URL.Host()`: the `host:port` form handed to `net.Listen`. -/
def URL.hostPort (u : URL) : String :=
  u.hostname ++ ":" ++ u.port

/-- `URL.String()`: the textual form handed to RPC dials and probes. -/
def URL.string (u : URL) : String :=
  "http://" ++ u.hostname ++ ":" ++ u.port

/-- The latest L1 block as seen by the orchestrator; only its timestamp
(`Time()`) is consumed. -/
structure L1Block where
  time : Nat
deriving DecidableEq

/-- `opgenesis.L1Deployments`: contract role names to deployed addresses.
Only the L2-output-oracle proxy address is consumed downstream. -/
structure L1Deployments where
  l2OutputOracleProxy : Nat
deriving DecidableEq

/-- The fields of `opgenesis.DeployConfig` the orchestrator reads or writes:
the two chain IDs it overrides and the injected deployments. -/
structure DeployConfig where
  l1ChainID : Nat
  l2ChainID : Nat
  deployments : Option L1Deployments
deriving DecidableEq

/-- Modelled from the spec: `DeployConfig.SetDeployments` lives in
op-chain-ops, outside `src/`; §4.4 says it "inject[s] `l1Deployments` into
the deploy config". -/
def DeployConfig.setDeployments (cfg : DeployConfig) (d : L1Deployments) : DeployConfig :=
  { cfg with deployments := some d }

/-- The derived rollup configuration.  Modelled from the spec
(§3, **RolloverConfig/RollupConfig**): "derived, read-only configuration
binding an L1 block snapshot, an L2 genesis hash, and a confirmation-depth
parameter"; the L2 chain ID comes from the deploy config it is derived
from. -/
structure RollupConfig where
  l1Origin : L1Block
  l2GenesisHash : Nat
  confirmationDepth : Nat
  l2ChainID : Nat
deriving DecidableEq

/-- Modelled from the spec: `DeployConfig.RollupConfig` (op-chain-ops) is not
under `src/`.  Per §3 and §4.4 it binds the L1 block snapshot, the L2 genesis
hash and the confirmation depth into the derived config; its failure mode
(malformed config, fatal) is supplied by the world. -/
def deriveRollupConfig (failure : Option Err) (cfg : DeployConfig) (b : L1Block)
    (l2GenesisHash confirmationDepth : Nat) : Except Err RollupConfig :=
  match failure with
  | some e => .error e
  | none => .ok ⟨b, l2GenesisHash, confirmationDepth, cfg.l2ChainID⟩

/-- Modelled from the spec: `crypto.PubkeyToAddress(privKey.PublicKey)`
(go-ethereum) deterministically derives the funded account's address from the
generated key; the derivation itself is external, only the data flow from the
key to the funded address matters here. -/
def pubkeyToAddress (privKey : Nat) : Nat :=
  privKey

/-- `genesis.Genesis` as constructed in `runMonomer`: the chain ID and the
genesis time handed to the L2 node (the app state is an external
collaborator). -/
structure Genesis where
  chainID : Nat
  time : Nat
deriving DecidableEq

/-- Which of the three listeners `runMonomer` binds. -/
inductive Listener where
  | engineHTTP
  | engineWS
  | comet
deriving DecidableEq

/-- The externally visible events of one pipeline run, each carrying the
arguments the Go code passes to the corresponding external call. -/
inductive Ev where
  | logProcess (name : String)
  | startProcess (name : String)
  | goAnvilMonitor
  | probe (u : String)
  | dial (u : String)
  | generateKey
  | setBalance (addr amount : Nat)
  | forgeRun (contractsRootDir rpcURL : String) (deployerKey : Nat)
  | forgeWait
  | blockByNumber
  | listen (which : Listener) (addr : String)
  | newTestApp (chainID : Nat)
  | nodeRun (g : Genesis)
  | genesisHashQuery
  | loadL1Deployments (path : String)
  | loadDeployConfig (path : String)
  | deriveRollup (cfg : DeployConfig) (b : L1Block) (l2GenesisHash confirmationDepth : Nat)
  | opStackRun (oracleAddr privKey : Nat) (rc : RollupConfig)
  | onAnvilErr (e : Option Err)
deriving DecidableEq

instance {ε α : Type} [DecidableEq ε] [DecidableEq α] : DecidableEq (Except ε α) :=
  fun a b =>
    match a, b with
    | .error e, .error f =>
      if h : e = f then .isTrue (by rw [h]) else .isFalse (by simp [h])
    | .error _, .ok _ => .isFalse (by simp)
    | .ok _, .error _ => .isFalse (by simp)
    | .ok x, .ok y =>
      if h : x = y then .isTrue (by rw [h]) else .isFalse (by simp [h])

/-- The outcome of every external operation `Stack.Run` performs, in program
order.  `none` / `.ok` means the operation succeeds; `some e` / `.error e`
is the error the Go call would return. -/
structure World where
  logAnvilErr : Option Err
  startAnvilErr : Option Err
  anvilWaitErr : Option Err
  anvilReachable : Bool
  dialAnvilErr : Option Err
  genKey : Except Err Nat
  setBalanceErr : Option Err
  logForgeErr : Option Err
  startForgeErr : Option Err
  waitForgeErr : Option Err
  latestL1Block : Except Err L1Block
  listenEngineHTTPErr : Option Err
  listenEngineWSErr : Option Err
  listenCometErr : Option Err
  newTestAppErr : Option Err
  nodeRunErr : Option Err
  monomerEngineReachable : Bool
  dialMonomerErr : Option Err
  genesisHash : Except Err Nat
  l1Deployments : Except Err L1Deployments
  deployConfigTemplate : Except Err DeployConfig
  rollupConfigErr : Option Err
  opStackRunErr : Option Err
deriving DecidableEq

/-- The orchestrator's own configuration (`e2e.Stack`).  The event listener
is modelled by the trace, and subprocess state is owned by the lifecycle
manager, so neither appears here. -/
structure Stack where
  anvilURL : URL
  monomerEngineURL : URL
  monomerCometURL : URL
  opNodeURL : URL
  contractsRootDir : String
  l1BlockTime : Nat
deriving DecidableEq

/-- `const oneETH = uint64(1e18)` -/
def oneETH : Nat := 1000000000000000000

/-- The background task `env.Go` spawns right after the anvil process starts
(lines 86–90): wait for the process and, if the wait fails, report
`fmt.Errorf("run %s: %v", ...)` through the event listener's `OnAnvilErr`.
Its events are delivered to the listener, not interleaved into the pipeline's
own trace, and the pipeline never reads its outcome. -/
def anvilMonitor (w : World) : List Ev :=
  match w.anvilWaitErr with
  | some e => [Ev.onAnvilErr (some (wrap "run anvil" e))]
  | none => []

/-- `Stack.runMonomer` (lines 189–234): bind the three listeners (engine HTTP
on an ephemeral localhost port, engine WS and comet on the configured hosts),
build the test app and the in-memory stores, and run the node with a genesis
carrying the given chain ID and genesis time. -/
def Stack.runMonomer (s : Stack) (w : World) (genesisTime chainIDU64 : Nat) :
    Option Err × List Ev :=
  let evs := [Ev.listen .engineHTTP "127.0.0.1:0"]
  match w.listenEngineHTTPErr with
  | some e => (some (wrap "set up monomer engine http listener" e), evs)
  | none =>
  let evs := evs ++ [Ev.listen .engineWS s.monomerEngineURL.hostPort]
  match w.listenEngineWSErr with
  | some e => (some (wrap "set up monomer engine ws listener" e), evs)
  | none =>
  let evs := evs ++ [Ev.listen .comet s.monomerCometURL.hostPort]
  match w.listenCometErr with
  | some e => (some (wrap "set up monomer comet listener" e), evs)
  | none =>
  let evs := evs ++ [Ev.newTestApp chainIDU64]
  match w.newTestAppErr with
  | some e => (some (wrap "new test app" e), evs)
  | none =>
  let evs := evs ++ [Ev.nodeRun ⟨chainIDU64, genesisTime⟩]
  match w.nodeRunErr with
  | some e => (some (wrap "run monomer" e), evs)
  | none => (none, evs)

/-- `Stack.Run` (lines 68–187): the ordered bring-up pipeline.  Returns the
pipeline's error result (`none` is Go's `nil`) and the trace of external
events performed, in order. -/
def Stack.run (s : Stack) (w : World) : Option Err × List Ev :=
  let evs := [Ev.logProcess "anvil"]
  match w.logAnvilErr with
  | some e => (some (wrap "log anvil process" e), evs)
  | none =>
  let evs := evs ++ [Ev.startProcess "anvil"]
  match w.startAnvilErr with
  | some e => (some (wrap "start anvil" e), evs)
  | none =>
  let evs := evs ++ [Ev.goAnvilMonitor, Ev.probe s.anvilURL.string]
  if !w.anvilReachable then (none, evs)
  else
  let evs := evs ++ [Ev.dial s.anvilURL.string]
  match w.dialAnvilErr with
  | some e => (some (wrap "dial anvil" e), evs)
  | none =>
  let evs := evs ++ [Ev.generateKey]
  match w.genKey with
  | .error e => (some (wrap "generate key" e), evs)
  | .ok privKey =>
  let evs := evs ++ [Ev.setBalance (pubkeyToAddress privKey) (10 * oneETH)]
  match w.setBalanceErr with
  | some e => (some (wrap "set balance" e), evs)
  | none =>
  let evs := evs ++ [Ev.logProcess "forge"]
  match w.logForgeErr with
  | some e => (some (wrap "log forge process" e), evs)
  | none =>
  let evs := evs ++ [Ev.forgeRun s.contractsRootDir s.anvilURL.string privKey]
  match w.startForgeErr with
  | some e => (some (wrap "start forge" e), evs)
  | none =>
  let evs := evs ++ [Ev.forgeWait]
  match w.waitForgeErr with
  | some e => (some (wrap "run forge" e), evs)
  | none =>
  let evs := evs ++ [Ev.blockByNumber]
  match w.latestL1Block with
  | .error e => (some (wrap "get the latest l1 block" e), evs)
  | .ok latestL1Block =>
  let monomerOut := s.runMonomer w latestL1Block.time 901
  let evs := evs ++ monomerOut.2
  match monomerOut.1 with
  | some e => (some e, evs)
  | none =>
  let evs := evs ++ [Ev.probe s.monomerEngineURL.string]
  if !w.monomerEngineReachable then (none, evs)
  else
  let evs := evs ++ [Ev.dial s.monomerEngineURL.string]
  match w.dialMonomerErr with
  | some e => (some (wrap "dial monomer" e), evs)
  | none =>
  let evs := evs ++ [Ev.genesisHashQuery]
  match w.genesisHash with
  | .error e => (some (wrap "get Monomer genesis block hash" e), evs)
  | .ok l2GenesisBlockHash =>
  let evs := evs ++
    [Ev.loadL1Deployments (s.contractsRootDir ++ "/deployments/hardhat/.deploy")]
  match w.l1Deployments with
  | .error e => (some (wrap "new l1 deployments" e), evs)
  | .ok l1Deps =>
  let evs := evs ++ [Ev.loadDeployConfig (s.contractsRootDir ++ "/deploy-config")]
  match w.deployConfigTemplate with
  | .error e => (some (wrap "new deploy config" e), evs)
  | .ok deployConfig0 =>
  let deployConfig1 := { deployConfig0 with l1ChainID := 31337 }
  let deployConfig2 := { deployConfig1 with l2ChainID := 901 }
  let deployConfig3 := deployConfig2.setDeployments l1Deps
  let evs := evs ++ [Ev.deriveRollup deployConfig3 latestL1Block l2GenesisBlockHash 1]
  match deriveRollupConfig w.rollupConfigErr deployConfig3 latestL1Block l2GenesisBlockHash 1 with
  | .error e => (some (wrap "new rollup config" e), evs)
  | .ok rollupConfig =>
  let evs := evs ++ [Ev.opStackRun l1Deps.l2OutputOracleProxy privKey rollupConfig]
  match w.opStackRunErr with
  | some e => (some (wrap "run the op stack" e), evs)
  | none => (none, evs)

/-! Concrete fixtures: a stack configuration and an all-success world, used
to evaluate the pipeline at concrete inputs. -/

/-- A concrete stack configuration. -/
def s0 : Stack where
  anvilURL := ⟨"127.0.0.1", "8545"⟩
  monomerEngineURL := ⟨"127.0.0.1", "8888"⟩
  monomerCometURL := ⟨"127.0.0.1", "26657"⟩
  opNodeURL := ⟨"127.0.0.1", "7545"⟩
  contractsRootDir := "contracts"
  l1BlockTime := 1

/-- A concrete world in which every external operation succeeds. -/
def w0 : World where
  logAnvilErr := none
  startAnvilErr := none
  anvilWaitErr := none
  anvilReachable := true
  dialAnvilErr := none
  genKey := .ok 5
  setBalanceErr := none
  logForgeErr := none
  startForgeErr := none
  waitForgeErr := none
  latestL1Block := .ok ⟨1000⟩
  listenEngineHTTPErr := none
  listenEngineWSErr := none
  listenCometErr := none
  newTestAppErr := none
  nodeRunErr := none
  monomerEngineReachable := true
  dialMonomerErr := none
  genesisHash := .ok 42
  l1Deployments := .ok ⟨77⟩
  deployConfigTemplate := .ok ⟨900, 1234, none⟩
  rollupConfigErr := none
  opStackRunErr := none

/-- The deploy config the all-success world hands to rollup-config
derivation: the loaded template with the orchestrator's overrides applied. -/
def dcfg0 : DeployConfig := ⟨31337, 901, some ⟨77⟩⟩

/-- The per-event facts that hold of every event the pipeline can emit, over
all worlds: which arguments each external call receives and which world
outcomes it presupposes. -/
def evFact (s : Stack) (w : World) : Ev → Prop
  | .listen .engineHTTP a => a = "127.0.0.1:0"
  | .listen .engineWS a => a = s.monomerEngineURL.hostPort
  | .listen .comet a => a = s.monomerCometURL.hostPort
  | .probe u => u = s.anvilURL.string ∨ u = s.monomerEngineURL.string
  | .nodeRun g => g.chainID = 901 ∧ w.waitForgeErr = none ∧
      ∀ b, w.latestL1Block = .ok b → g.time = b.time
  | .deriveRollup cfg _ gh d => cfg.l1ChainID = 31337 ∧ cfg.l2ChainID = 901 ∧ d = 1 ∧
      (∀ h, w.genesisHash = .ok h → gh = h) ∧
      (∀ tpl deps, w.deployConfigTemplate = .ok tpl → w.l1Deployments = .ok deps →
        cfg = DeployConfig.setDeployments
          { { tpl with l1ChainID := 31337 } with l2ChainID := 901 } deps)
  | .opStackRun _ k rc =>
      (∀ h, w.genesisHash = .ok h → rc.l2GenesisHash = h) ∧
      rc.confirmationDepth = 1 ∧
      (∀ kk, w.genKey = .ok kk → k = kk)
  | .setBalance a amt => amt = 10 * oneETH ∧
      ∀ kk, w.genKey = .ok kk → a = pubkeyToAddress kk
  | .forgeRun _ _ k => ∀ kk, w.genKey = .ok kk → k = kk
  | .blockByNumber => w.startForgeErr = none ∧ w.waitForgeErr = none
  | _ => True

/-- Every event of every pipeline trace satisfies its per-event fact. -/
theorem mem_run_facts (s : Stack) (w : World) :
    ∀ e ∈ (s.run w).2, evFact s w e := by
  intro e hmem
  dsimp only [Stack.run, Stack.runMonomer, deriveRollupConfig] at hmem
  repeat' split at hmem
  all_goals simp only [List.mem_append, List.mem_cons, List.not_mem_nil,
    or_false, false_or] at hmem
  all_goals try casesm* _ ∨ _
  all_goals subst_vars
  all_goals
    first
    | (simp_all [evFact, DeployConfig.setDeployments]; done)
    | (cases hrc : w.rollupConfigErr <;>
        simp_all [evFact, DeployConfig.setDeployments] <;> subst_vars <;> simp)

/-- C3: after config derivation in Stack.Run, DeployConfig.L1ChainID equals
the simulator's fixed chain ID 31337 for every possible value the loaded
template file assigned to that field: every deploy config handed to
rollup-config derivation has l1ChainID = 31337, over all worlds (hence all
template values). -/
theorem c3_l1ChainID_forced (s : Stack) (w : World) :
    ∀ cfg b gh d, Ev.deriveRollup cfg b gh d ∈ (s.run w).2 → cfg.l1ChainID = 31337 := by
  intro cfg b gh d hmem
  exact (mem_run_facts s w _ hmem).1

/-- Witness for C3 at the concrete all-success world. -/
theorem c3_l1ChainID_forced_witness :
    Ev.deriveRollup dcfg0 ⟨1000⟩ 42 1 ∈ (s0.run w0).2 ∧ dcfg0.l1ChainID = 31337 :=
  ⟨by decide, c3_l1ChainID_forced s0 w0 dcfg0 ⟨1000⟩ 42 1 (by decide)⟩

/-- The rollup config the all-success world derives. -/
def rc0 : RollupConfig := ⟨⟨1000⟩, 42, 1, 901⟩

/-- The deploy-config template the all-success world loads. -/
def tpl0 : DeployConfig := ⟨900, 1234, none⟩

/-- C2: for every run of Stack.Run that reaches config derivation, the L2
genesis hash passed into rollup-config derivation (and hence recorded in the
derived RollupConfig handed to the dependent stack) is exactly the hash the
L2 node's genesis-hash query returned, and the confirmation-depth argument is
the constant 1. -/
theorem c2_genesis_hash_depth (s : Stack) (w : World) (h : Nat)
    (hg : w.genesisHash = .ok h) :
    (∀ cfg b gh d, Ev.deriveRollup cfg b gh d ∈ (s.run w).2 → gh = h ∧ d = 1) ∧
    (∀ a k rc, Ev.opStackRun a k rc ∈ (s.run w).2 →
      rc.l2GenesisHash = h ∧ rc.confirmationDepth = 1) := by
  constructor
  · intro cfg b gh d hmem
    have hf := mem_run_facts s w _ hmem
    exact ⟨hf.2.2.2.1 h hg, hf.2.2.1⟩
  · intro a k rc hmem
    have hf := mem_run_facts s w _ hmem
    exact ⟨hf.1 h hg, hf.2.1⟩

/-- Witness for C2 at the concrete all-success world. -/
theorem c2_genesis_hash_depth_witness :
    w0.genesisHash = Except.ok 42 ∧
    Ev.deriveRollup dcfg0 ⟨1000⟩ 42 1 ∈ (s0.run w0).2 ∧
    Ev.opStackRun 77 5 rc0 ∈ (s0.run w0).2 ∧
    ((42 : Nat) = 42 ∧ (1 : Nat) = 1) ∧
    (rc0.l2GenesisHash = 42 ∧ rc0.confirmationDepth = 1) :=
  ⟨rfl, by decide, by decide,
   (c2_genesis_hash_depth s0 w0 42 rfl).1 dcfg0 ⟨1000⟩ 42 1 (by decide),
   (c2_genesis_hash_depth s0 w0 42 rfl).2 77 5 rc0 (by decide)⟩

/-- C4: config derivation applies its overrides in this exact order — force
the L1 chain ID to 31337, then force the L2 chain ID to the configured 901,
then inject the loaded L1 deployments — and only afterwards derives the
rollup config: the deploy config handed to derivation is exactly the loaded
template with those three overrides applied in that order. -/
theorem c4_override_order (s : Stack) (w : World) (tpl : DeployConfig)
    (deps : L1Deployments) (htpl : w.deployConfigTemplate = .ok tpl)
    (hdeps : w.l1Deployments = .ok deps) :
    ∀ cfg b gh d, Ev.deriveRollup cfg b gh d ∈ (s.run w).2 →
      cfg = DeployConfig.setDeployments
        { { tpl with l1ChainID := 31337 } with l2ChainID := 901 } deps := by
  intro cfg b gh d hmem
  exact (mem_run_facts s w _ hmem).2.2.2.2 tpl deps htpl hdeps

/-- Witness for C4 at the concrete all-success world. -/
theorem c4_override_order_witness :
    w0.deployConfigTemplate = Except.ok tpl0 ∧
    w0.l1Deployments = Except.ok ⟨77⟩ ∧
    Ev.deriveRollup dcfg0 ⟨1000⟩ 42 1 ∈ (s0.run w0).2 ∧
    dcfg0 = DeployConfig.setDeployments
      { { tpl0 with l1ChainID := 31337 } with l2ChainID := 901 } ⟨77⟩ :=
  ⟨rfl, rfl, by decide,
   c4_override_order s0 w0 tpl0 ⟨77⟩ rfl rfl dcfg0 ⟨1000⟩ 42 1 (by decide)⟩

/-- C5: the L2 genesis time handed to the L2 node equals the timestamp of the
latest L1 block fetched after contract deployment completed (so L2 genesis
never precedes L1 genesis); moreover the node only runs when the deployment
wait succeeded. -/
theorem c5_genesis_time_from_l1_snapshot (s : Stack) (w : World) (b : L1Block)
    (hb : w.latestL1Block = .ok b) :
    ∀ g, Ev.nodeRun g ∈ (s.run w).2 → g.time = b.time ∧ w.waitForgeErr = none := by
  intro g hmem
  have hf := mem_run_facts s w _ hmem
  exact ⟨hf.2.2 b hb, hf.2.1⟩

/-- Witness for C5 at the concrete all-success world. -/
theorem c5_genesis_time_from_l1_snapshot_witness :
    w0.latestL1Block = Except.ok ⟨1000⟩ ∧
    Ev.nodeRun ⟨901, 1000⟩ ∈ (s0.run w0).2 ∧
    ((Genesis.mk 901 1000).time = (L1Block.mk 1000).time ∧ w0.waitForgeErr = none) :=
  ⟨rfl, by decide,
   c5_genesis_time_from_l1_snapshot s0 w0 ⟨1000⟩ rfl ⟨901, 1000⟩ (by decide)⟩

/-- C9: the chain ID in the genesis descriptor given to the L2 node always
equals the L2 chain ID written into the deploy config (both the constant
901), so the derived rollup config and the running L2 node can never disagree
on the L2 chain ID. -/
theorem c9_l2_chain_id_agreement (s : Stack) (w : World) :
    (∀ g, Ev.nodeRun g ∈ (s.run w).2 → g.chainID = 901) ∧
    (∀ cfg b gh d, Ev.deriveRollup cfg b gh d ∈ (s.run w).2 → cfg.l2ChainID = 901) ∧
    (∀ g cfg b gh d, Ev.nodeRun g ∈ (s.run w).2 →
      Ev.deriveRollup cfg b gh d ∈ (s.run w).2 → g.chainID = cfg.l2ChainID) := by
  refine ⟨fun g hg => (mem_run_facts s w _ hg).1,
    fun cfg b gh d hc => (mem_run_facts s w _ hc).2.1, ?_⟩
  intro g cfg b gh d hg hc
  rw [(mem_run_facts s w _ hg).1, (mem_run_facts s w _ hc).2.1]

/-- Witness for C9 at the concrete all-success world. -/
theorem c9_l2_chain_id_agreement_witness :
    (Genesis.mk 901 1000).chainID = 901 ∧
    dcfg0.l2ChainID = 901 ∧
    (Genesis.mk 901 1000).chainID = dcfg0.l2ChainID :=
  ⟨(c9_l2_chain_id_agreement s0 w0).1 ⟨901, 1000⟩ (by decide),
   (c9_l2_chain_id_agreement s0 w0).2.1 dcfg0 ⟨1000⟩ 42 1 (by decide),
   (c9_l2_chain_id_agreement s0 w0).2.2 ⟨901, 1000⟩ dcfg0 ⟨1000⟩ 42 1
     (by decide) (by decide)⟩

/-- C10: the L2 engine HTTP listener is bound to 127.0.0.1 with an
OS-assigned ephemeral port rather than any Stack-configured endpoint; only
the engine WebSocket and comet listeners bind the Stack-configured hosts; and
every reachability probe targets the configured anvil URL or the configured
engine URL (the WebSocket endpoint), never the ephemeral HTTP one. -/
theorem c10_listener_binding (s : Stack) (w : World) :
    (∀ a, Ev.listen .engineHTTP a ∈ (s.run w).2 → a = "127.0.0.1:0") ∧
    (∀ a, Ev.listen .engineWS a ∈ (s.run w).2 → a = s.monomerEngineURL.hostPort) ∧
    (∀ a, Ev.listen .comet a ∈ (s.run w).2 → a = s.monomerCometURL.hostPort) ∧
    (∀ u, Ev.probe u ∈ (s.run w).2 →
      u = s.anvilURL.string ∨ u = s.monomerEngineURL.string) :=
  ⟨fun _ ha => mem_run_facts s w _ ha,
   fun _ ha => mem_run_facts s w _ ha,
   fun _ ha => mem_run_facts s w _ ha,
   fun _ hu => mem_run_facts s w _ hu⟩

/-- Witness for C10 at the concrete all-success world. -/
theorem c10_listener_binding_witness :
    Ev.listen .engineHTTP "127.0.0.1:0" ∈ (s0.run w0).2 ∧
    ("127.0.0.1:0" = "127.0.0.1:0") ∧
    ("127.0.0.1:8888" = s0.monomerEngineURL.hostPort) ∧
    ("127.0.0.1:26657" = s0.monomerCometURL.hostPort) ∧
    ("http://127.0.0.1:8888" = s0.anvilURL.string ∨
      "http://127.0.0.1:8888" = s0.monomerEngineURL.string) :=
  ⟨by decide,
   (c10_listener_binding s0 w0).1 "127.0.0.1:0" (by decide),
   (c10_listener_binding s0 w0).2.1 "127.0.0.1:8888" (by decide),
   (c10_listener_binding s0 w0).2.2.1 "127.0.0.1:26657" (by decide),
   (c10_listener_binding s0 w0).2.2.2 "http://127.0.0.1:8888" (by decide)⟩

/-- C1: if a started service (the L1 simulator, or the L2 node) never becomes
reachable before the caller's context is cancelled, Stack.Run returns a nil
error and performs none of the subsequent pipeline stages: the run's result
is `none` and its trace stops at the failed probe. -/
theorem c1_unreachable_silent_skip (s : Stack) (w : World) (k : Nat) (b : L1Block) :
    (w.logAnvilErr = none → w.startAnvilErr = none → w.anvilReachable = false →
      s.run w = (none, [Ev.logProcess "anvil", Ev.startProcess "anvil",
        Ev.goAnvilMonitor, Ev.probe s.anvilURL.string])) ∧
    (w.logAnvilErr = none → w.startAnvilErr = none → w.anvilReachable = true →
      w.dialAnvilErr = none → w.genKey = .ok k → w.setBalanceErr = none →
      w.logForgeErr = none → w.startForgeErr = none → w.waitForgeErr = none →
      w.latestL1Block = .ok b → w.listenEngineHTTPErr = none →
      w.listenEngineWSErr = none → w.listenCometErr = none →
      w.newTestAppErr = none → w.nodeRunErr = none →
      w.monomerEngineReachable = false →
      s.run w = (none, [Ev.logProcess "anvil", Ev.startProcess "anvil",
        Ev.goAnvilMonitor, Ev.probe s.anvilURL.string,
        Ev.dial s.anvilURL.string, Ev.generateKey,
        Ev.setBalance (pubkeyToAddress k) (10 * oneETH), Ev.logProcess "forge",
        Ev.forgeRun s.contractsRootDir s.anvilURL.string k, Ev.forgeWait,
        Ev.blockByNumber, Ev.listen .engineHTTP "127.0.0.1:0",
        Ev.listen .engineWS s.monomerEngineURL.hostPort,
        Ev.listen .comet s.monomerCometURL.hostPort, Ev.newTestApp 901,
        Ev.nodeRun ⟨901, b.time⟩, Ev.probe s.monomerEngineURL.string])) := by
  constructor
  · intro h1 h2 h3
    simp [Stack.run, h1, h2, h3]
  · intro h1 h2 h3 h4 h5 h6 h7 h8 h9 h10 h11 h12 h13 h14 h15 h16
    simp [Stack.run, Stack.runMonomer, h1, h2, h3, h4, h5, h6, h7, h8, h9,
      h10, h11, h12, h13, h14, h15, h16]

/-- Witness for C1: an anvil-unreachable world and a monomer-unreachable
world, both otherwise successful. -/
theorem c1_unreachable_silent_skip_witness :
    s0.run { w0 with anvilReachable := false } = (none, [Ev.logProcess "anvil",
      Ev.startProcess "anvil", Ev.goAnvilMonitor, Ev.probe s0.anvilURL.string]) ∧
    s0.run { w0 with monomerEngineReachable := false } =
      (none, [Ev.logProcess "anvil", Ev.startProcess "anvil",
        Ev.goAnvilMonitor, Ev.probe s0.anvilURL.string,
        Ev.dial s0.anvilURL.string, Ev.generateKey,
        Ev.setBalance (pubkeyToAddress 5) (10 * oneETH), Ev.logProcess "forge",
        Ev.forgeRun s0.contractsRootDir s0.anvilURL.string 5, Ev.forgeWait,
        Ev.blockByNumber, Ev.listen .engineHTTP "127.0.0.1:0",
        Ev.listen .engineWS s0.monomerEngineURL.hostPort,
        Ev.listen .comet s0.monomerCometURL.hostPort, Ev.newTestApp 901,
        Ev.nodeRun ⟨901, 1000⟩, Ev.probe s0.monomerEngineURL.string]) :=
  ⟨(c1_unreachable_silent_skip s0 { w0 with anvilReachable := false }
      5 ⟨1000⟩).1 rfl rfl rfl,
   (c1_unreachable_silent_skip s0 { w0 with monomerEngineReachable := false }
      5 ⟨1000⟩).2 rfl rfl rfl rfl rfl rfl rfl rfl rfl rfl rfl rfl rfl rfl rfl rfl⟩

/-- C6: the L1 simulator is monitored asynchronously — a background task is
spawned once the process starts, it reports a wait failure through the
listener's OnAnvilErr with a non-nil (wrapped) error, and its outcome never
changes Stack.Run's result or trace. -/
theorem c6_anvil_monitor_async (s : Stack) (w : World) (x : Option Err) :
    (w.logAnvilErr = none → w.startAnvilErr = none →
      Ev.goAnvilMonitor ∈ (s.run w).2) ∧
    (∀ e, w.anvilWaitErr = some e →
      anvilMonitor w = [Ev.onAnvilErr (some (wrap "run anvil" e))]) ∧
    (w.anvilWaitErr = none → anvilMonitor w = []) ∧
    (∀ eo, Ev.onAnvilErr eo ∈ anvilMonitor w → eo ≠ none) ∧
    s.run { w with anvilWaitErr := x } = s.run w := by
  refine ⟨?_, ?_, ?_, ?_, by cases w; rfl⟩
  · intro h1 h2
    dsimp only [Stack.run, Stack.runMonomer]
    simp only [h1, h2]
    repeat' split
    all_goals simp
  · intro e he
    simp [anvilMonitor, he]
  · intro he
    simp [anvilMonitor, he]
  · intro eo hmem
    cases he : w.anvilWaitErr <;> simp_all [anvilMonitor]

/-- Witness for C6 at concrete worlds with and without a wait failure. -/
theorem c6_anvil_monitor_async_witness :
    Ev.goAnvilMonitor ∈ (s0.run w0).2 ∧
    anvilMonitor { w0 with anvilWaitErr := some ⟨"boom"⟩ } =
      [Ev.onAnvilErr (some (wrap "run anvil" ⟨"boom"⟩))] ∧
    anvilMonitor w0 = [] ∧
    some (wrap "run anvil" ⟨"boom"⟩) ≠ (none : Option Err) ∧
    s0.run { w0 with anvilWaitErr := some ⟨"boom"⟩ } = s0.run w0 :=
  ⟨(c6_anvil_monitor_async s0 w0 none).1 rfl rfl,
   (c6_anvil_monitor_async s0 { w0 with anvilWaitErr := some ⟨"boom"⟩ }
      none).2.1 ⟨"boom"⟩ rfl,
   (c6_anvil_monitor_async s0 w0 none).2.2.1 rfl,
   (c6_anvil_monitor_async s0 { w0 with anvilWaitErr := some ⟨"boom"⟩ }
      none).2.2.2.1 (some (wrap "run anvil" ⟨"boom"⟩)) (by simp [anvilMonitor]),
   (c6_anvil_monitor_async s0 w0 (some ⟨"boom"⟩)).2.2.2.2⟩

/-- C7: the contract-deployment script runs synchronously — the latest-block
read happens only after the script's start and wait both succeeded — and a
spawn failure or nonzero exit aborts the pipeline with a wrapped,
stage-identifying error. -/
theorem c7_forge_synchronous_abort (s : Stack) (w : World) (k : Nat) (e : Err) :
    (Ev.blockByNumber ∈ (s.run w).2 →
      w.startForgeErr = none ∧ w.waitForgeErr = none) ∧
    (w.logAnvilErr = none → w.startAnvilErr = none → w.anvilReachable = true →
      w.dialAnvilErr = none → w.genKey = .ok k → w.setBalanceErr = none →
      w.logForgeErr = none → w.startForgeErr = some e →
      (s.run w).1 = some (wrap "start forge" e) ∧
      Ev.forgeWait ∉ (s.run w).2 ∧ Ev.blockByNumber ∉ (s.run w).2) ∧
    (w.logAnvilErr = none → w.startAnvilErr = none → w.anvilReachable = true →
      w.dialAnvilErr = none → w.genKey = .ok k → w.setBalanceErr = none →
      w.logForgeErr = none → w.startForgeErr = none → w.waitForgeErr = some e →
      (s.run w).1 = some (wrap "run forge" e) ∧
      Ev.blockByNumber ∉ (s.run w).2) := by
  refine ⟨fun hm => mem_run_facts s w _ hm, ?_, ?_⟩
  · intro h1 h2 h3 h4 h5 h6 h7 h8
    simp [Stack.run, h1, h2, h3, h4, h5, h6, h7, h8]
  · intro h1 h2 h3 h4 h5 h6 h7 h8 h9
    simp [Stack.run, h1, h2, h3, h4, h5, h6, h7, h8, h9]

/-- Witness for C7: forge spawn failure and forge exit failure at otherwise
successful worlds, plus the synchronous fact at the all-success world. -/
theorem c7_forge_synchronous_abort_witness :
    (w0.startForgeErr = none ∧ w0.waitForgeErr = none) ∧
    ((s0.run { w0 with startForgeErr := some ⟨"boom"⟩ }).1 =
        some (wrap "start forge" ⟨"boom"⟩) ∧
      Ev.forgeWait ∉ (s0.run { w0 with startForgeErr := some ⟨"boom"⟩ }).2 ∧
      Ev.blockByNumber ∉ (s0.run { w0 with startForgeErr := some ⟨"boom"⟩ }).2) ∧
    ((s0.run { w0 with waitForgeErr := some ⟨"boom"⟩ }).1 =
        some (wrap "run forge" ⟨"boom"⟩) ∧
      Ev.blockByNumber ∉ (s0.run { w0 with waitForgeErr := some ⟨"boom"⟩ }).2) :=
  ⟨(c7_forge_synchronous_abort s0 w0 5 ⟨"boom"⟩).1 (by decide),
   (c7_forge_synchronous_abort s0 { w0 with startForgeErr := some ⟨"boom"⟩ }
      5 ⟨"boom"⟩).2.1 rfl rfl rfl rfl rfl rfl rfl rfl,
   (c7_forge_synchronous_abort s0 { w0 with waitForgeErr := some ⟨"boom"⟩ }
      5 ⟨"boom"⟩).2.2 rfl rfl rfl rfl rfl rfl rfl rfl rfl⟩

/-- At most one key generation happens in any pipeline run. -/
theorem generateKey_count (s : Stack) (w : World) :
    ((s.run w).2).count Ev.generateKey ≤ 1 := by
  dsimp only [Stack.run, Stack.runMonomer, deriveRollupConfig]
  repeat' split
  all_goals (simp [List.count_cons, List.count_append]; try omega)

/-- C8: a single key pair is generated per run, and that same key is the
account funded via the set-balance call (through address derivation), the
deployer identity passed to the deployment script, and the key handed to the
dependent protocol stack; no other key is generated. -/
theorem c8_single_ephemeral_key (s : Stack) (w : World) (k : Nat)
    (hk : w.genKey = .ok k) :
    ((s.run w).2).count Ev.generateKey ≤ 1 ∧
    (∀ a amt, Ev.setBalance a amt ∈ (s.run w).2 →
      a = pubkeyToAddress k ∧ amt = 10 * oneETH) ∧
    (∀ root rpcu dk, Ev.forgeRun root rpcu dk ∈ (s.run w).2 → dk = k) ∧
    (∀ a dk rc, Ev.opStackRun a dk rc ∈ (s.run w).2 → dk = k) := by
  refine ⟨generateKey_count s w, ?_, ?_, ?_⟩
  · intro a amt hm
    have hf := mem_run_facts s w _ hm
    exact ⟨hf.2 k hk, hf.1⟩
  · intro root rpcu dk hm
    exact (mem_run_facts s w _ hm) k hk
  · intro a dk rc hm
    exact (mem_run_facts s w _ hm).2.2 k hk

/-- Witness for C8 at the concrete all-success world. -/
theorem c8_single_ephemeral_key_witness :
    w0.genKey = Except.ok 5 ∧
    ((s0.run w0).2).count Ev.generateKey ≤ 1 ∧
    Ev.setBalance (pubkeyToAddress 5) (10 * oneETH) ∈ (s0.run w0).2 ∧
    (pubkeyToAddress 5 = pubkeyToAddress 5 ∧ (10 * oneETH : Nat) = 10 * oneETH) ∧
    Ev.forgeRun s0.contractsRootDir s0.anvilURL.string 5 ∈ (s0.run w0).2 ∧
    ((5 : Nat) = 5) ∧
    Ev.opStackRun 77 5 rc0 ∈ (s0.run w0).2 ∧ ((5 : Nat) = 5) :=
  ⟨rfl, (c8_single_ephemeral_key s0 w0 5 rfl).1, by decide,
   (c8_single_ephemeral_key s0 w0 5 rfl).2.1 (pubkeyToAddress 5)
     (10 * oneETH) (by decide),
   by decide,
   (c8_single_ephemeral_key s0 w0 5 rfl).2.2.1 s0.contractsRootDir
     s0.anvilURL.string 5 (by decide),
   by decide,
   (c8_single_ephemeral_key s0 w0 5 rfl).2.2.2 77 5 rc0 (by decide)⟩

end Monomer
